import Mathlib

/-!
Verification of the llm-benchmark statistics/job-tracking core.

The Python source is shallowly embedded: machine ints become `Int`, Python
floats become `ℚ` (all arithmetic in scope is ratios of integers), code that
can raise becomes `Except String`, and `None`-able values become `Option`.
Timestamps (`datetime.now()`) are abstracted as `Nat` parameters.  The
external ollama collaborator is abstracted as oracle parameters: the model
list as `Except String (List String)` (it can raise) and the single-run
executor `run_benchmark` as `String → String → Option OllamaResponse`
(it catches its own exceptions and returns `None` on failure).
-/

namespace Bench

/-- `Message` from benchmark.py: role plus content. -/
structure Message where
  role : String
  content : String
deriving Repr, DecidableEq

/-- `OllamaResponse` from benchmark.py: one model reply plus timing/token
counters.  Counters are pydantic `int`, embedded as `Int` (no sign
constraint is declared in the source). -/
structure OllamaResponse where
  model : String
  created_at : Nat
  message : Message
  done : Bool
  total_duration : Int
  load_duration : Int
  prompt_eval_count : Int
  prompt_eval_duration : Int
  eval_count : Int
  eval_duration : Int
deriving Repr, DecidableEq

/-- `validate_prompt_eval_count` from benchmark.py: a value of `-1` is
coerced to `0`; every other value is returned unchanged. -/
def validate_prompt_eval_count (value : Int) : Int :=
  if value = -1 then 0 else value

/-- Whether `validate_prompt_eval_count` prints the missing-token-count
warning: exactly when the incoming value is `-1`. -/
def prompt_eval_count_warning (value : Int) : Bool :=
  value = -1

/-- The pydantic constructor of `OllamaResponse`: every field is stored as
given except `prompt_eval_count`, which passes through its field validator
(`validate_default=True`, so the default `-1` is validated too). -/
def mkOllamaResponse (model : String) (created_at : Nat) (message : Message)
    (done : Bool) (total_duration load_duration prompt_eval_count
    prompt_eval_duration eval_count eval_duration : Int) : OllamaResponse :=
  { model := model, created_at := created_at, message := message, done := done,
    total_duration := total_duration, load_duration := load_duration,
    prompt_eval_count := validate_prompt_eval_count prompt_eval_count,
    prompt_eval_duration := prompt_eval_duration,
    eval_count := eval_count, eval_duration := eval_duration }

/-- A raw collaborator reply as fed to `OllamaResponse.model_validate`:
`load_duration` may be omitted (field default `0`) and `prompt_eval_count`
may be omitted (field default `-1`, then validated). -/
structure RawReply where
  model : String
  created_at : Nat
  message : Message
  done : Bool
  total_duration : Int
  load_duration : Option Int
  prompt_eval_count : Option Int
  prompt_eval_duration : Int
  eval_count : Int
  eval_duration : Int
deriving Repr, DecidableEq

/-- `OllamaResponse.model_validate` on a raw reply: missing fields take
their declared defaults, then the constructor (with its validator) runs. -/
def model_validate (raw : RawReply) : OllamaResponse :=
  mkOllamaResponse raw.model raw.created_at raw.message raw.done
    raw.total_duration (raw.load_duration.getD 0)
    (raw.prompt_eval_count.getD (-1))
    raw.prompt_eval_duration raw.eval_count raw.eval_duration

/-- Whether validating a raw reply prints the missing-token-count warning. -/
def model_validate_warning (raw : RawReply) : Bool :=
  prompt_eval_count_warning (raw.prompt_eval_count.getD (-1))

/-- `nanosec_to_sec` from benchmark.py: division by 1e9. -/
def nanosec_to_sec (nanosec : Int) : ℚ :=
  (nanosec : ℚ) / 1000000000

/-- The nine derived values computed by `ollama_response_to_stats`
(backend/api.py) and printed by `inference_stats` (benchmark.py). -/
structure BenchmarkStats where
  model : String
  prompt_eval_ts : ℚ
  response_ts : ℚ
  total_ts : ℚ
  prompt_tokens : Int
  response_tokens : Int
  model_load_time : ℚ
  prompt_eval_time : ℚ
  response_time : ℚ
  total_time : ℚ
deriving Repr, DecidableEq

/-- `ollama_response_to_stats` from backend/api.py.  Python raises
`ZeroDivisionError` when a float denominator is `0.0`; the three divisions
are evaluated in source order (prompt rate, response rate, total rate). -/
def ollama_response_to_stats (response : OllamaResponse) :
    Except String BenchmarkStats :=
  if nanosec_to_sec response.prompt_eval_duration = 0 then
    Except.error "ZeroDivisionError"
  else if nanosec_to_sec response.eval_duration = 0 then
    Except.error "ZeroDivisionError"
  else if nanosec_to_sec (response.prompt_eval_duration + response.eval_duration) = 0 then
    Except.error "ZeroDivisionError"
  else
    Except.ok
      { model := response.model,
        prompt_eval_ts := (response.prompt_eval_count : ℚ) /
          nanosec_to_sec response.prompt_eval_duration,
        response_ts := (response.eval_count : ℚ) /
          nanosec_to_sec response.eval_duration,
        total_ts := ((response.prompt_eval_count + response.eval_count : Int) : ℚ) /
          nanosec_to_sec (response.prompt_eval_duration + response.eval_duration),
        prompt_tokens := response.prompt_eval_count,
        response_tokens := response.eval_count,
        model_load_time := nanosec_to_sec response.load_duration,
        prompt_eval_time := nanosec_to_sec response.prompt_eval_duration,
        response_time := nanosec_to_sec response.eval_duration,
        total_time := nanosec_to_sec response.total_duration }

/-- The values `inference_stats` (benchmark.py) computes and prints for one
response, with the same `ZeroDivisionError` behaviour and evaluation order
as the source (prompt rate first, then response rate, then total rate). -/
def inference_stats (model_response : OllamaResponse) :
    Except String BenchmarkStats :=
  if nanosec_to_sec model_response.prompt_eval_duration = 0 then
    Except.error "ZeroDivisionError"
  else if nanosec_to_sec model_response.eval_duration = 0 then
    Except.error "ZeroDivisionError"
  else if nanosec_to_sec (model_response.prompt_eval_duration + model_response.eval_duration) = 0 then
    Except.error "ZeroDivisionError"
  else
    Except.ok
      { model := model_response.model,
        prompt_eval_ts := (model_response.prompt_eval_count : ℚ) /
          nanosec_to_sec model_response.prompt_eval_duration,
        response_ts := (model_response.eval_count : ℚ) /
          nanosec_to_sec model_response.eval_duration,
        total_ts := ((model_response.prompt_eval_count + model_response.eval_count : Int) : ℚ) /
          nanosec_to_sec (model_response.prompt_eval_duration + model_response.eval_duration),
        prompt_tokens := model_response.prompt_eval_count,
        response_tokens := model_response.eval_count,
        model_load_time := nanosec_to_sec model_response.load_duration,
        prompt_eval_time := nanosec_to_sec model_response.prompt_eval_duration,
        response_time := nanosec_to_sec model_response.eval_duration,
        total_time := nanosec_to_sec model_response.total_duration }

/-- Rounding to two decimal places, as Python's 2-decimal formatting does
for the example rate (round half up is the same as round half even here,
since the value being displayed is not a tie). -/
def round2 (q : ℚ) : ℚ :=
  (Int.floor (q * 100 + 1 / 2) : ℚ) / 100

/-- The spec's worked example record: 10 prompt tokens over 200000000 ns,
20 response tokens over 300000000 ns, 1000000000 ns total, 500000000 ns
load time. -/
def exampleResponse : OllamaResponse :=
  { model := "test-model", created_at := 0,
    message := { role := "assistant", content := "Test response" },
    done := true, total_duration := 1000000000, load_duration := 500000000,
    prompt_eval_count := 10, prompt_eval_duration := 200000000,
    eval_count := 20, eval_duration := 300000000 }

/-- The derived statistics of `exampleResponse`: 50 prompt tokens/s, 200/3
response tokens/s, 60 total tokens/s, 0.5 s load, 0.2 s prompt eval,
0.3 s response, 1.0 s total. -/
def exampleStats : BenchmarkStats :=
  { model := "test-model", prompt_eval_ts := 50, response_ts := 200 / 3,
    total_ts := 60, prompt_tokens := 10, response_tokens := 20,
    model_load_time := 1 / 2, prompt_eval_time := 1 / 5,
    response_time := 3 / 10, total_time := 1 }

/-- Python's `sum(f(r) for r in responses)` over a list that may contain
`None` placeholders: accessing a field of `None` raises `AttributeError`
at the first such element. -/
def sumField (f : OllamaResponse → Int) :
    List (Option OllamaResponse) → Except String Int
  | [] => Except.ok 0
  | none :: _ => Except.error "AttributeError"
  | some r :: rest => (sumField f rest).map (fun s => f r + s)

/-- `average_stats` from benchmark.py, on the list the CLI actually passes
(which can contain `None` placeholders for failed runs).  Empty input logs
a warning and returns (`ok none`); otherwise the synthetic summed record is
built — `responses[0].model` is evaluated first, then the six field sums,
in the source's argument order — and fed to `inference_stats`.  Any raised
`AttributeError`/`ZeroDivisionError` propagates to the caller. -/
def average_stats (now : Nat) (responses : List (Option OllamaResponse)) :
    Except String (Option BenchmarkStats) :=
  if responses.length = 0 then Except.ok none
  else do
    let model0 ← match responses with
      | some r :: _ => Except.ok r.model
      | _ => Except.error "AttributeError"
    let td ← sumField (fun r => r.total_duration) responses
    let ld ← sumField (fun r => r.load_duration) responses
    let pc ← sumField (fun r => r.prompt_eval_count) responses
    let pd ← sumField (fun r => r.prompt_eval_duration) responses
    let ec ← sumField (fun r => r.eval_count) responses
    let ed ← sumField (fun r => r.eval_duration) responses
    let res := mkOllamaResponse model0 now
      { role := "system",
        content := "Average stats across " ++ toString responses.length ++ " runs" }
      true td ld pc pd ec ed
    (inference_stats res).map some

/-- The synthetic summed record that `average_stats` builds for a non-empty
input list (benchmark.py lines 161-175), written out for a list
`r0 :: rest` of actual responses: `responses[0].model`, a fresh timestamp,
a system message describing an average over N runs, `done=true`, and the
element-wise sums of the six counters, fed through the pydantic
constructor (so the summed `prompt_eval_count` passes the validator). -/
def aggregatedResponse (now : Nat) (r0 : OllamaResponse)
    (rest : List OllamaResponse) : OllamaResponse :=
  mkOllamaResponse r0.model now
    { role := "system",
      content := "Average stats across " ++ toString (r0 :: rest).length ++ " runs" }
    true
    (((r0 :: rest).map fun r => r.total_duration).sum)
    (((r0 :: rest).map fun r => r.load_duration).sum)
    (((r0 :: rest).map fun r => r.prompt_eval_count).sum)
    (((r0 :: rest).map fun r => r.prompt_eval_duration).sum)
    (((r0 :: rest).map fun r => r.eval_count).sum)
    (((r0 :: rest).map fun r => r.eval_duration).sum)

/-- Python `dict` assignment `d[k] = v` on an insertion-ordered dict held
as an association list: an existing key keeps its position and gets the new
value; a new key is appended. -/
def dictInsert {α : Type} (k : String) (v : α) :
    List (String × α) → List (String × α)
  | [] => [(k, v)]
  | (k', v') :: rest =>
      if k' = k then (k, v) :: rest else (k', v') :: dictInsert k v rest

/-- The benchmark-collection loop of `main` (benchmark.py, non-verbose
path): for each model, run the executor on every prompt and append the
result — including `None` failures — to that model's list, storing the
list in the `benchmarks` dict. -/
def mainLoop (model_names prompts : List String)
    (exec : String → String → Option OllamaResponse) :
    List (String × List (Option OllamaResponse)) :=
  model_names.foldl
    (fun benchmarks model_name =>
      dictInsert model_name (prompts.map (fun prompt => exec model_name prompt))
        benchmarks)
    []

/-- The final loop of `main`: `average_stats` on each model's response
list, in dict order; the first raised exception escapes `main` unhandled. -/
def averageAll (now : Nat) :
    List (String × List (Option OllamaResponse)) → Except String Unit
  | [] => Except.ok ()
  | (_, responses) :: rest => do
      let _ ← average_stats now responses
      averageAll now rest

/-- `main` from benchmark.py (non-verbose), with the enumerated model list
and the executor as oracles: collect all responses, then average per
model.  Returns `ok` iff no unhandled exception escapes. -/
def cliMain (now : Nat) (model_names prompts : List String)
    (exec : String → String → Option OllamaResponse) : Except String Unit :=
  averageAll now (mainLoop model_names prompts exec)

/-- `get_benchmark_models` from benchmark.py, with the collaborator's list
operation as an oracle (already projected to the `name` field of each
record): a collaborator failure yields `[]`; otherwise the names are
filtered against the skip list only when the skip list is non-empty. -/
def get_benchmark_models (collaborator : Except String (List String))
    (skip_models : List String) : List String :=
  match collaborator with
  | Except.error _ => []
  | Except.ok model_names =>
      if skip_models.length > 0 then
        model_names.filter (fun m => !(skip_models.contains m))
      else model_names

/-- `BenchmarkResult` from backend/api.py: the per-job entry of the
in-memory `benchmark_results` map.  `results` is an insertion-ordered dict
from model name to stats list. -/
structure BenchmarkJob where
  status : String
  progress : ℚ
  models_tested : List String
  current_model : Option String
  results : List (String × List BenchmarkStats)
  error_message : Option String
  created_at : Nat
  completed_at : Option Nat
deriving Repr, DecidableEq

/-- The job entry created by `start_benchmark` before the background task
runs: running, progress 0, empty results. -/
def initialJob (created : Nat) : BenchmarkJob :=
  { status := "running", progress := 0, models_tested := [], current_model := none,
    results := [], error_message := none, created_at := created, completed_at := none }

/-- State threaded through `run_benchmark_task`: the job entry, the local
`results` dict (written to the job only on completion), the
`completed_tests` counter, and — for auditing the progress computation —
the denominator of every `completed_tests / total_tests` division the task
actually executed. -/
structure TaskState where
  job : BenchmarkJob
  results : List (String × List BenchmarkStats)
  completed_tests : Nat
  progressDivisors : List Nat
deriving Repr

/-- One iteration of the inner prompt loop of `run_benchmark_task`:
executor failure (`None`) skips the stats append but still counts the test
and updates progress; a raised `ZeroDivisionError` in stats conversion is
caught by the per-pair handler and skips the rest of the iteration
(no count, no progress update); success appends the stats, counts the
test, and updates progress. -/
def runPair (total_tests : Nat)
    (exec : String → String → Option OllamaResponse)
    (model_name prompt : String)
    (st : TaskState × List BenchmarkStats) : TaskState × List BenchmarkStats :=
  let ts := st.1
  let model_results := st.2
  match exec model_name prompt with
  | none =>
      let completed := ts.completed_tests + 1
      (⟨{ ts.job with progress := (completed : ℚ) / (total_tests : ℚ) },
        ts.results, completed, ts.progressDivisors ++ [total_tests]⟩,
       model_results)
  | some response =>
      match ollama_response_to_stats response with
      | Except.error _ => (ts, model_results)
      | Except.ok stats =>
          let completed := ts.completed_tests + 1
          (⟨{ ts.job with progress := (completed : ℚ) / (total_tests : ℚ) },
            ts.results, completed, ts.progressDivisors ++ [total_tests]⟩,
           model_results ++ [stats])

/-- One iteration of the outer model loop of `run_benchmark_task`: set
`current_model`, run every prompt accumulating `model_results`, then store
the list in the local results dict. -/
def runModel (total_tests : Nat)
    (exec : String → String → Option OllamaResponse)
    (prompts : List String) (ts : TaskState) (model_name : String) : TaskState :=
  let ts1 : TaskState :=
    ⟨{ ts.job with current_model := some model_name },
     ts.results, ts.completed_tests, ts.progressDivisors⟩
  let folded := prompts.foldl
    (fun st prompt => runPair total_tests exec model_name prompt st) (ts1, [])
  ⟨folded.1.job, dictInsert model_name folded.2 folded.1.results,
   folded.1.completed_tests, folded.1.progressDivisors⟩

/-- `run_benchmark_task` from backend/api.py, with the model enumerator
(which can raise) and the single-run executor as oracles.  On success the
final update sets status completed, progress 1.0, the accumulated results,
`completed_at`, and clears `current_model`; an exception escaping the loop
(only the enumerator can raise — everything inside the pair loop is caught
per pair) instead sets status error, the message, and `completed_at`,
leaving all other keys of the job entry as they were. -/
def run_benchmark_task (now : Nat)
    (enumerator : Except String (List String))
    (exec : String → String → Option OllamaResponse)
    (prompts : List String) (job0 : BenchmarkJob) : TaskState :=
  match enumerator with
  | Except.error e =>
      ⟨{ job0 with
          status := "error", error_message := some e,
          completed_at := some now },
       [], 0, []⟩
  | Except.ok model_names =>
      let total_tests := model_names.length * prompts.length
      let ts0 : TaskState :=
        ⟨{ job0 with models_tested := model_names }, [], 0, []⟩
      let ts := model_names.foldl
        (fun st model_name => runModel total_tests exec prompts st model_name) ts0
      ⟨{ ts.job with
          status := "completed", progress := 1,
          results := ts.results, completed_at := some now,
          current_model := none },
       ts.results, ts.completed_tests, ts.progressDivisors⟩

theorem nanosec_to_sec_eq_zero (n : Int) : nanosec_to_sec n = 0 ↔ n = 0 := by
  unfold nanosec_to_sec
  rw [div_eq_zero_iff]
  norm_num

theorem stats_ok (r : OllamaResponse)
    (hpd : r.prompt_eval_duration ≠ 0) (hed : r.eval_duration ≠ 0)
    (hs : r.prompt_eval_duration + r.eval_duration ≠ 0) :
    ollama_response_to_stats r = Except.ok
      { model := r.model,
        prompt_eval_ts := (r.prompt_eval_count : ℚ) /
          nanosec_to_sec r.prompt_eval_duration,
        response_ts := (r.eval_count : ℚ) / nanosec_to_sec r.eval_duration,
        total_ts := ((r.prompt_eval_count + r.eval_count : Int) : ℚ) /
          nanosec_to_sec (r.prompt_eval_duration + r.eval_duration),
        prompt_tokens := r.prompt_eval_count,
        response_tokens := r.eval_count,
        model_load_time := nanosec_to_sec r.load_duration,
        prompt_eval_time := nanosec_to_sec r.prompt_eval_duration,
        response_time := nanosec_to_sec r.eval_duration,
        total_time := nanosec_to_sec r.total_duration } := by
  unfold ollama_response_to_stats
  rw [if_neg (fun h => hpd ((nanosec_to_sec_eq_zero _).mp h)),
    if_neg (fun h => hed ((nanosec_to_sec_eq_zero _).mp h)),
    if_neg (fun h => hs ((nanosec_to_sec_eq_zero _).mp h))]

theorem inference_stats_eq_converter (r : OllamaResponse) :
    inference_stats r = ollama_response_to_stats r := rfl

theorem example_stats_eval :
    ollama_response_to_stats exampleResponse = Except.ok exampleStats := by
  rw [stats_ok exampleResponse (by decide) (by decide) (by decide)]
  simp only [Except.ok.injEq, exampleResponse, exampleStats, nanosec_to_sec]
  norm_num

/-- Claim C1: for every response record with non-zero (positive)
`prompt_eval_duration` and `eval_duration`, the Statistics Converter
succeeds and returns exactly `prompt_eval_count / (prompt_eval_duration /
1e9)`, `eval_count / (eval_duration / 1e9)`, and `(prompt_eval_count +
eval_count) / ((prompt_eval_duration + eval_duration) / 1e9)`, with every
duration converted to seconds by dividing by 1e9; `inference_stats`
computes the same values; and on the worked example the rates are 50,
200/3 (displayed as 66.67 at two decimals) and 60, with times
0.5 s / 0.2 s / 0.3 s / 1.0 s. -/
theorem C1_statistics_converter :
    (∀ r : OllamaResponse, inference_stats r = ollama_response_to_stats r) ∧
    (∀ r : OllamaResponse,
      0 < r.prompt_eval_duration → 0 < r.eval_duration →
      ∃ s, ollama_response_to_stats r = Except.ok s ∧
        s.prompt_eval_ts =
          (r.prompt_eval_count : ℚ) / ((r.prompt_eval_duration : ℚ) / 1000000000) ∧
        s.response_ts = (r.eval_count : ℚ) / ((r.eval_duration : ℚ) / 1000000000) ∧
        s.total_ts = ((r.prompt_eval_count : ℚ) + (r.eval_count : ℚ)) /
          (((r.prompt_eval_duration : ℚ) + (r.eval_duration : ℚ)) / 1000000000) ∧
        s.model_load_time = (r.load_duration : ℚ) / 1000000000 ∧
        s.prompt_eval_time = (r.prompt_eval_duration : ℚ) / 1000000000 ∧
        s.response_time = (r.eval_duration : ℚ) / 1000000000 ∧
        s.total_time = (r.total_duration : ℚ) / 1000000000) ∧
    (∃ s, ollama_response_to_stats exampleResponse = Except.ok s ∧
      s.prompt_eval_ts = 50 ∧ s.response_ts = 200 / 3 ∧
      round2 s.response_ts = 6667 / 100 ∧ s.total_ts = 60 ∧
      s.model_load_time = 1 / 2 ∧ s.prompt_eval_time = 1 / 5 ∧
      s.response_time = 3 / 10 ∧ s.total_time = 1) := by
  refine ⟨fun r => rfl, fun r h1 h2 => ?_, ?_⟩
  · rw [stats_ok r (by omega) (by omega) (by omega)]
    refine ⟨_, rfl, rfl, rfl, ?_, rfl, rfl, rfl, rfl⟩
    simp only [nanosec_to_sec]
    push_cast
    ring
  · refine ⟨exampleStats, example_stats_eval, rfl, rfl, ?_, rfl, rfl, rfl, rfl, rfl⟩
    have hfl : Int.floor (exampleStats.response_ts * 100 + 1 / 2) = 6667 := by
      rw [Int.floor_eq_iff]
      constructor <;> [skip; skip] <;> simp only [exampleStats] <;> norm_num
    rw [round2, hfl]
    norm_num

/-- Claim C1 witness: the general statement applied to the worked example
record, whose durations are positive. -/
theorem C1_witness :
    0 < exampleResponse.prompt_eval_duration ∧
    ∃ s, ollama_response_to_stats exampleResponse = Except.ok s ∧
      s.prompt_eval_ts = (exampleResponse.prompt_eval_count : ℚ) /
        ((exampleResponse.prompt_eval_duration : ℚ) / 1000000000) ∧
      s.response_ts = (exampleResponse.eval_count : ℚ) /
        ((exampleResponse.eval_duration : ℚ) / 1000000000) ∧
      s.total_ts = ((exampleResponse.prompt_eval_count : ℚ) + (exampleResponse.eval_count : ℚ)) /
        (((exampleResponse.prompt_eval_duration : ℚ) + (exampleResponse.eval_duration : ℚ)) / 1000000000) ∧
      s.model_load_time = (exampleResponse.load_duration : ℚ) / 1000000000 ∧
      s.prompt_eval_time = (exampleResponse.prompt_eval_duration : ℚ) / 1000000000 ∧
      s.response_time = (exampleResponse.eval_duration : ℚ) / 1000000000 ∧
      s.total_time = (exampleResponse.total_duration : ℚ) / 1000000000 :=
  ⟨by decide, C1_statistics_converter.2.1 exampleResponse (by decide) (by decide)⟩

theorem sumField_map_some (f : OllamaResponse → Int) (rs : List OllamaResponse) :
    sumField f (rs.map some) = Except.ok ((rs.map f).sum) := by
  induction rs with
  | nil => rfl
  | cons r rest ih => simp [sumField, ih, Except.map]

theorem average_stats_eq (now : Nat) (r0 : OllamaResponse)
    (rest : List OllamaResponse) :
    average_stats now ((r0 :: rest).map some) =
      (inference_stats (aggregatedResponse now r0 rest)).map some := by
  unfold average_stats aggregatedResponse
  rw [if_neg (show ¬((r0 :: rest).map some).length = 0 by simp)]
  simp only [sumField_map_some, List.length_map]
  rfl

/-- Claim C2: the Aggregator's synthetic record carries the element-wise
sums of the six counters, `done=true`, a system message describing an
average over N runs, and the first input's model name; the averaged
figures are exactly the Statistics Converter applied to that summed record
(sum-of-counts over sum-of-durations, not a mean of per-run rates).
Stated for lists of Response Records with (spec-invariant) non-negative
`prompt_eval_count`, so the summed count is not the `-1` sentinel. -/
theorem C2_aggregator (now : Nat) (r0 : OllamaResponse)
    (rest : List OllamaResponse)
    (hnn : ∀ r ∈ r0 :: rest, 0 ≤ r.prompt_eval_count) :
    (aggregatedResponse now r0 rest).total_duration =
      ((r0 :: rest).map fun r => r.total_duration).sum ∧
    (aggregatedResponse now r0 rest).load_duration =
      ((r0 :: rest).map fun r => r.load_duration).sum ∧
    (aggregatedResponse now r0 rest).prompt_eval_count =
      ((r0 :: rest).map fun r => r.prompt_eval_count).sum ∧
    (aggregatedResponse now r0 rest).prompt_eval_duration =
      ((r0 :: rest).map fun r => r.prompt_eval_duration).sum ∧
    (aggregatedResponse now r0 rest).eval_count =
      ((r0 :: rest).map fun r => r.eval_count).sum ∧
    (aggregatedResponse now r0 rest).eval_duration =
      ((r0 :: rest).map fun r => r.eval_duration).sum ∧
    (aggregatedResponse now r0 rest).done = true ∧
    (aggregatedResponse now r0 rest).message.role = "system" ∧
    (aggregatedResponse now r0 rest).message.content =
      "Average stats across " ++ toString (r0 :: rest).length ++ " runs" ∧
    (aggregatedResponse now r0 rest).model = r0.model ∧
    average_stats now ((r0 :: rest).map some) =
      (inference_stats (aggregatedResponse now r0 rest)).map some := by
  have hsum : 0 ≤ ((r0 :: rest).map fun r => r.prompt_eval_count).sum := by
    apply List.sum_nonneg
    intro x hx
    simp only [List.mem_map] at hx
    obtain ⟨r, hr, rfl⟩ := hx
    exact hnn r hr
  refine ⟨rfl, rfl, ?_, rfl, rfl, rfl, rfl, rfl, rfl, rfl,
    average_stats_eq now r0 rest⟩
  show validate_prompt_eval_count _ = _
  rw [validate_prompt_eval_count, if_neg (by omega)]

/-- Claim C2 witness: the aggregator relation applied at a concrete
two-element list of example records. -/
theorem C2_witness :
    average_stats 0 ([exampleResponse, exampleResponse].map some) =
      (inference_stats (aggregatedResponse 0 exampleResponse [exampleResponse])).map some :=
  (C2_aggregator 0 exampleResponse [exampleResponse]
    (by decide)).2.2.2.2.2.2.2.2.2.2

/-- Claim C8: aggregating a Response Record `r` repeated `N ≥ 1` times
yields the summed record with every counter equal to `N` times the single
value, and the converter on that summed record returns the same
`total_tokens_per_sec` as the single run (durations positive, count
non-negative per the Response Record invariant). -/
theorem C8_aggregate_replicate (now : Nat) (r : OllamaResponse) (N : Nat)
    (hN : 1 ≤ N) (hpc : 0 ≤ r.prompt_eval_count)
    (hpd : 0 < r.prompt_eval_duration) (hed : 0 < r.eval_duration) :
    average_stats now ((List.replicate N r).map some) =
      (inference_stats (aggregatedResponse now r (List.replicate (N - 1) r))).map some ∧
    (aggregatedResponse now r (List.replicate (N - 1) r)).total_duration =
      (N : Int) * r.total_duration ∧
    (aggregatedResponse now r (List.replicate (N - 1) r)).load_duration =
      (N : Int) * r.load_duration ∧
    (aggregatedResponse now r (List.replicate (N - 1) r)).prompt_eval_count =
      (N : Int) * r.prompt_eval_count ∧
    (aggregatedResponse now r (List.replicate (N - 1) r)).prompt_eval_duration =
      (N : Int) * r.prompt_eval_duration ∧
    (aggregatedResponse now r (List.replicate (N - 1) r)).eval_count =
      (N : Int) * r.eval_count ∧
    (aggregatedResponse now r (List.replicate (N - 1) r)).eval_duration =
      (N : Int) * r.eval_duration ∧
    ∃ s sr,
      inference_stats (aggregatedResponse now r (List.replicate (N - 1) r)) =
        Except.ok s ∧
      inference_stats r = Except.ok sr ∧ s.total_ts = sr.total_ts := by
  have hcons : r :: List.replicate (N - 1) r = List.replicate N r := by
    conv_rhs => rw [show N = (N - 1) + 1 by omega]
    rw [List.replicate_succ]
  have hsum : ∀ f : OllamaResponse → Int,
      ((r :: List.replicate (N - 1) r).map f).sum = (N : Int) * f r := by
    intro f
    rw [hcons, List.map_replicate, List.sum_replicate, nsmul_eq_mul]
  have hNQ : (0 : ℚ) < (N : ℚ) := by exact_mod_cast Nat.lt_of_lt_of_le Nat.zero_lt_one hN
  have hpcmul : 0 ≤ (N : Int) * r.prompt_eval_count :=
    mul_nonneg (Int.natCast_nonneg N) hpc
  have hpcfield : (aggregatedResponse now r (List.replicate (N - 1) r)).prompt_eval_count =
      (N : Int) * r.prompt_eval_count := by
    show validate_prompt_eval_count _ = _
    rw [hsum, validate_prompt_eval_count,
      if_neg (by intro h; rw [h] at hpcmul; norm_num at hpcmul)]
  have hpdfield : (aggregatedResponse now r (List.replicate (N - 1) r)).prompt_eval_duration =
      (N : Int) * r.prompt_eval_duration := hsum _
  have hedfield : (aggregatedResponse now r (List.replicate (N - 1) r)).eval_duration =
      (N : Int) * r.eval_duration := hsum _
  have hecfield : (aggregatedResponse now r (List.replicate (N - 1) r)).eval_count =
      (N : Int) * r.eval_count := hsum _
  have hNpd : 0 < (N : Int) * r.prompt_eval_duration :=
    mul_pos (by exact_mod_cast Nat.lt_of_lt_of_le Nat.zero_lt_one hN) hpd
  have hNed : 0 < (N : Int) * r.eval_duration :=
    mul_pos (by exact_mod_cast Nat.lt_of_lt_of_le Nat.zero_lt_one hN) hed
  refine ⟨by rw [← hcons]; exact average_stats_eq now r (List.replicate (N - 1) r),
    hsum _, hsum _, hpcfield, hpdfield, hecfield, hedfield, ?_⟩
  rw [inference_stats_eq_converter, inference_stats_eq_converter,
    stats_ok r (by omega) (by omega) (by omega),
    stats_ok _ (by rw [hpdfield]; exact ne_of_gt hNpd)
      (by rw [hedfield]; exact ne_of_gt hNed)
      (by rw [hpdfield, hedfield]; exact ne_of_gt (add_pos hNpd hNed))]
  refine ⟨_, _, rfl, rfl, ?_⟩
  rw [hpcfield, hpdfield, hecfield, hedfield]
  unfold nanosec_to_sec
  have h1 : ((r.prompt_eval_duration : ℚ) + (r.eval_duration : ℚ)) ≠ 0 := by
    have h0 : (0 : ℚ) < (r.prompt_eval_duration : ℚ) + (r.eval_duration : ℚ) := by
      have := add_pos hpd hed
      exact_mod_cast this
    exact ne_of_gt h0
  have hN0 : (N : ℚ) ≠ 0 := ne_of_gt hNQ
  push_cast
  field_simp
  ring

/-- Claim C8 witness: the replication relation at the example record with
N = 2. -/
theorem C8_witness :
    ∃ s sr,
      inference_stats
        (aggregatedResponse 0 exampleResponse (List.replicate (2 - 1) exampleResponse)) =
        Except.ok s ∧
      inference_stats exampleResponse = Except.ok sr ∧ s.total_ts = sr.total_ts :=
  (C8_aggregate_replicate 0 exampleResponse 2 (by decide) (by decide)
    (by decide) (by decide)).2.2.2.2.2.2.2

/-- Claim C3: a job over 2 distinct models × 2 prompts in which every
executor call returns a record whose stats conversion succeeds ends with
status completed, progress 1.0, `completed_at` set, `current_model`
cleared, and results holding exactly the two model keys in enumeration
order, each with its two prompt entries in request order. -/
theorem C3_job_tracker_success (now created : Nat) (m1 m2 p1 p2 : String)
    (exec : String → String → Option OllamaResponse)
    (r11 r12 r21 r22 : OllamaResponse) (s11 s12 s21 s22 : BenchmarkStats)
    (hm : m1 ≠ m2)
    (h11 : exec m1 p1 = some r11)
    (h11s : ollama_response_to_stats r11 = Except.ok s11)
    (h12 : exec m1 p2 = some r12)
    (h12s : ollama_response_to_stats r12 = Except.ok s12)
    (h21 : exec m2 p1 = some r21)
    (h21s : ollama_response_to_stats r21 = Except.ok s21)
    (h22 : exec m2 p2 = some r22)
    (h22s : ollama_response_to_stats r22 = Except.ok s22) :
    (run_benchmark_task now (Except.ok [m1, m2]) exec [p1, p2]
      (initialJob created)).job =
      { status := "completed", progress := 1, models_tested := [m1, m2],
        current_model := none,
        results := [(m1, [s11, s12]), (m2, [s21, s22])],
        error_message := none, created_at := created,
        completed_at := some now } := by
  simp [run_benchmark_task, runModel, runPair, dictInsert, initialJob,
    h11, h11s, h12, h12s, h21, h21s, h22, h22s, hm]

/-- Claim C3 witness: a concrete 2×2 job where every call returns the
example record. -/
theorem C3_witness :
    (run_benchmark_task 9 (Except.ok ["a", "b"])
      (fun _ _ => some exampleResponse) ["p", "q"] (initialJob 3)).job =
      { status := "completed", progress := 1, models_tested := ["a", "b"],
        current_model := none,
        results := [("a", [exampleStats, exampleStats]),
                    ("b", [exampleStats, exampleStats])],
        error_message := none, created_at := 3, completed_at := some 9 } :=
  C3_job_tracker_success 9 3 "a" "b" "p" "q" (fun _ _ => some exampleResponse)
    exampleResponse exampleResponse exampleResponse exampleResponse
    exampleStats exampleStats exampleStats exampleStats
    (by decide) rfl example_stats_eval rfl example_stats_eval
    rfl example_stats_eval rfl example_stats_eval

theorem runModel_nil_prompts (total : Nat)
    (exec : String → String → Option OllamaResponse)
    (ts : TaskState) (m : String) :
    (runModel total exec [] ts m).progressDivisors = ts.progressDivisors := rfl

theorem foldl_runModel_nil_prompts (total : Nat)
    (exec : String → String → Option OllamaResponse)
    (names : List String) (ts : TaskState) :
    (names.foldl (fun st m => runModel total exec [] st m) ts).progressDivisors =
      ts.progressDivisors := by
  induction names generalizing ts with
  | nil => rfl
  | cons m rest ih => rw [List.foldl_cons, ih, runModel_nil_prompts]

theorem task_empty_matrix_divisors (now created : Nat)
    (model_names prompts : List String)
    (exec : String → String → Option OllamaResponse)
    (h : model_names = [] ∨ prompts = []) :
    (run_benchmark_task now (Except.ok model_names) exec prompts
      (initialJob created)).progressDivisors = [] := by
  rcases h with h | h
  · subst h; rfl
  · subst h
    unfold run_benchmark_task
    exact foldl_runModel_nil_prompts _ exec model_names _

/-- Claim C5 counterexample (the claim's negation): no job with an empty
model × prompt matrix ever executes the `completed_tests / total_tests`
progress division at all — the division sits inside the prompt loop, which
never runs — so in particular no division by zero is performed. -/
theorem C5_counterexample :
    ¬ ∃ (model_names prompts : List String)
        (exec : String → String → Option OllamaResponse) (now created : Nat),
      (model_names.length = 0 ∨ prompts.length = 0) ∧
      0 ∈ (run_benchmark_task now (Except.ok model_names) exec prompts
            (initialJob created)).progressDivisors := by
  rintro ⟨model_names, prompts, exec, now, created, hemp, hmem⟩
  rw [task_empty_matrix_divisors now created model_names prompts exec
    (by rcases hemp with h | h
        · exact Or.inl (List.length_eq_zero.mp h)
        · exact Or.inr (List.length_eq_zero.mp h))] at hmem
  exact List.not_mem_nil 0 hmem

/-- Claim C5 as amended: on an empty model × prompt matrix the background
task performs no progress division at all and the job simply completes
with status completed and progress 1.0. -/
theorem C5_amended (now created : Nat) (model_names prompts : List String)
    (exec : String → String → Option OllamaResponse)
    (h : model_names = [] ∨ prompts = []) :
    (run_benchmark_task now (Except.ok model_names) exec prompts
      (initialJob created)).progressDivisors = [] ∧
    (run_benchmark_task now (Except.ok model_names) exec prompts
      (initialJob created)).job.status = "completed" ∧
    (run_benchmark_task now (Except.ok model_names) exec prompts
      (initialJob created)).job.progress = 1 := by
  refine ⟨task_empty_matrix_divisors now created model_names prompts exec h, ?_, ?_⟩
  all_goals unfold run_benchmark_task
  all_goals rfl

/-- Claim C5 amended witness: a job with one model and no prompts. -/
theorem C5_witness :
    (run_benchmark_task 9 (Except.ok ["a"])
      (fun _ _ => some exampleResponse) [] (initialJob 3)).progressDivisors = [] ∧
    (run_benchmark_task 9 (Except.ok ["a"])
      (fun _ _ => some exampleResponse) [] (initialJob 3)).job.status = "completed" ∧
    (run_benchmark_task 9 (Except.ok ["a"])
      (fun _ _ => some exampleResponse) [] (initialJob 3)).job.progress = 1 :=
  C5_amended 9 3 ["a"] [] (fun _ _ => some exampleResponse) (Or.inr rfl)

/-- Claim C6: whenever the Model Enumerator raises, the background task
leaves the job with status error, the exception message recorded,
`completed_at` set, and the results still empty (the error handler only
overwrites the status, message and completion keys of the freshly created
job, whose results dict is empty). -/
theorem C6_enumerator_failure (now created : Nat) (e : String)
    (exec : String → String → Option OllamaResponse) (prompts : List String) :
    (run_benchmark_task now (Except.error e) exec prompts
      (initialJob created)).job =
      { status := "error", progress := 0, models_tested := [],
        current_model := none, results := [], error_message := some e,
        created_at := created, completed_at := some now } := rfl

/-- Claim C7: for every exclusion list and every model sequence the
collaborator reports, the Model Enumerator returns exactly the
collaborator's identifiers with the excluded ones removed, in the
collaborator's order; in particular exclusion `["a"]` over
`["a","b","c"]` gives `["b","c"]`. -/
theorem C7_model_enumerator :
    (∀ (model_names skip_models : List String),
      get_benchmark_models (Except.ok model_names) skip_models =
        model_names.filter (fun m => !(skip_models.contains m))) ∧
    get_benchmark_models (Except.ok ["a", "b", "c"]) ["a"] = ["b", "c"] := by
  refine ⟨fun model_names skip_models => ?_, by decide⟩
  unfold get_benchmark_models
  cases skip_models with
  | nil => simp [List.contains]
  | cons s rest => simp

/-- Claim C9 counterexample: validation does not enforce non-negative
durations — a raw reply reporting `total_duration = -1` validates to a
record whose `total_duration` is negative. -/
theorem C9_counterexample :
    ¬ (0 ≤ (model_validate
        { model := "m", created_at := 0,
          message := { role := "assistant", content := "c" },
          done := true, total_duration := -1, load_duration := some 0,
          prompt_eval_count := some 10, prompt_eval_duration := 1,
          eval_count := 1, eval_duration := 1 }).total_duration) := by
  decide

/-- Claim C9 as amended: validation passes every duration field through
unchanged (so they are non-negative exactly when the collaborator's raw
values are — no non-negativity is enforced), and `prompt_eval_count` is 0,
not a sentinel, whenever the collaborator omitted that field. -/
theorem C9_amended :
    (∀ raw : RawReply,
      (model_validate raw).total_duration = raw.total_duration ∧
      (model_validate raw).load_duration = raw.load_duration.getD 0 ∧
      (model_validate raw).prompt_eval_duration = raw.prompt_eval_duration ∧
      (model_validate raw).eval_duration = raw.eval_duration) ∧
    (∀ raw : RawReply, raw.prompt_eval_count = none →
      (model_validate raw).prompt_eval_count = 0) := by
  refine ⟨fun raw => ⟨rfl, rfl, rfl, rfl⟩, fun raw h => ?_⟩
  simp [model_validate, mkOllamaResponse, h, validate_prompt_eval_count]

/-- Claim C9 amended witness: a raw reply with `prompt_eval_count` omitted
validates to `prompt_eval_count = 0`. -/
theorem C9_witness :
    ({ model := "m", created_at := 0,
       message := { role := "assistant", content := "c" },
       done := true, total_duration := 5, load_duration := none,
       prompt_eval_count := none, prompt_eval_duration := 1,
       eval_count := 1, eval_duration := 1 : RawReply }).prompt_eval_count = none ∧
    (model_validate
      { model := "m", created_at := 0,
        message := { role := "assistant", content := "c" },
        done := true, total_duration := 5, load_duration := none,
        prompt_eval_count := none, prompt_eval_duration := 1,
        eval_count := 1, eval_duration := 1 }).prompt_eval_count = 0 :=
  ⟨rfl, C9_amended.2 _ rfl⟩

/-- Claim C10: the field validator coerces an explicitly supplied `-1` to
`0` and emits the missing-token-count warning — so a reported `-1` is
indistinguishable from an omitted field (same validated record, same
warning) — while every other supplied integer, negative ones included, is
kept unchanged with no warning. -/
theorem C10_neg_one_coercion :
    (validate_prompt_eval_count (-1) = 0 ∧
      prompt_eval_count_warning (-1) = true) ∧
    (∀ v : Int, v ≠ -1 →
      validate_prompt_eval_count v = v ∧ prompt_eval_count_warning v = false) ∧
    (∀ raw : RawReply,
      model_validate { raw with prompt_eval_count := some (-1) } =
        model_validate { raw with prompt_eval_count := none } ∧
      model_validate_warning { raw with prompt_eval_count := some (-1) } = true ∧
      model_validate_warning { raw with prompt_eval_count := none } = true) := by
  refine ⟨⟨rfl, rfl⟩, fun v hv => ⟨?_, ?_⟩, fun raw => ⟨rfl, rfl, rfl⟩⟩
  · simp [validate_prompt_eval_count, hv]
  · simp [prompt_eval_count_warning, hv]

/-- Claim C10 witness: the supplied value `-2` (negative but not `-1`) is
kept unchanged and emits no warning. -/
theorem C10_witness :
    ((-2 : Int) ≠ -1) ∧
    (validate_prompt_eval_count (-2) = -2 ∧
      prompt_eval_count_warning (-2) = false) :=
  ⟨by decide, C10_neg_one_coercion.2.1 (-2) (by decide)⟩

/-- Claim C4 is violated by the CLI batch: `main` appends the executor's
explicit no-result outcome (`None`) to the per-model response list
unconditionally, so with one model and two prompts where the first call
fails and the second succeeds, every remaining executor call is still
made (first conjunct), but the final per-model `average_stats` then
dereferences the `None` placeholder and an AttributeError escapes `main`
unhandled (second conjunct) — the per-call failure is fatal to the CLI
batch after all. -/
theorem C4_cli_batch_crash :
    mainLoop ["m"] ["p1", "p2"]
      (fun _ prompt => if prompt = "p2" then some exampleResponse else none) =
      [("m", [none, some exampleResponse])] ∧
    cliMain 0 ["m"] ["p1", "p2"]
      (fun _ prompt => if prompt = "p2" then some exampleResponse else none) =
      Except.error "AttributeError" := by
  exact ⟨rfl, rfl⟩

end Bench
